import Mathlib

/-!
Shallow embedding of the catalog service in `app.py`: a Flask application
exposing create / list / search / delete endpoints over a `Product` table,
with product images kept in an Azure blob container.

Text is modelled as `List Char`.  The database is a list of rows plus the
next auto-increment id; the blob container is the list of stored blob names
(blob contents are irrelevant to every property considered here).  External
failures of the two storage calls a request can make (`upload_blob`,
`delete_blob`) are injected through an `Env` record; the Azure SDK raises
`ResourceNotFoundError` when `delete_blob` targets a missing blob, which the
model reflects by treating that call as raising whenever the blob name is
not in the container.
-/

abbrev Str := List Char

/-- Whitespace as recognised by CPython `str.strip` / `str.split` /
`float()`: exactly the code points for which `str.isspace()` holds —
tab through carriage return (9-13), the separators 0x1C-0x1F, space,
NEL (0x85), NBSP (0xA0), Ogham space (0x1680), the 0x2000-0x200A range,
line/paragraph separator (0x2028/0x2029), 0x202F, 0x205F and the
ideographic space 0x3000. -/
def isSpace (c : Char) : Bool :=
  (9 ≤ c.toNat && c.toNat ≤ 13) || (28 ≤ c.toNat && c.toNat ≤ 32) ||
  c.toNat == 133 || c.toNat == 160 || c.toNat == 5760 ||
  (8192 ≤ c.toNat && c.toNat ≤ 8202) || c.toNat == 8232 ||
  c.toNat == 8233 || c.toNat == 8239 || c.toNat == 8287 ||
  c.toNat == 12288

/-- Python `str.strip()`: drop whitespace from both ends. -/
def pystrip (l : Str) : Str :=
  ((l.dropWhile isSpace).reverse.dropWhile isSpace).reverse

/-- ASCII lowercasing of one character, as performed by SQL `LOWER` /
Python casefolding on ASCII letters (modelled for the ASCII range). -/
def lowerChar (c : Char) : Char :=
  match c with
  | 'A' => 'a' | 'B' => 'b' | 'C' => 'c' | 'D' => 'd' | 'E' => 'e'
  | 'F' => 'f' | 'G' => 'g' | 'H' => 'h' | 'I' => 'i' | 'J' => 'j'
  | 'K' => 'k' | 'L' => 'l' | 'M' => 'm' | 'N' => 'n' | 'O' => 'o'
  | 'P' => 'p' | 'Q' => 'q' | 'R' => 'r' | 'S' => 's' | 'T' => 't'
  | 'U' => 'u' | 'V' => 'v' | 'W' => 'w' | 'X' => 'x' | 'Y' => 'y'
  | 'Z' => 'z'
  | c => c

def lowerStr (l : Str) : Str := l.map lowerChar

/-- Membership of a character in the body of a SQL Server `LIKE`
character class: entries are single characters or `a-b` ranges (ranges
compare by code point, modelling a binary collation). -/
def charInRanges (c : Char) : Str → Bool
  | a :: '-' :: b :: rest => (a ≤ c && c ≤ b) || charInRanges c rest
  | a :: rest => a = c || charInRanges c rest
  | [] => false

/-- SQL Server `LIKE` pattern matching: `%` matches any (possibly empty)
sequence, `_` matches exactly one character, `[set]` matches one character
of the set and `[^set]` one character outside it (the set body runs to the
first `]`; a `[` with no closing `]` lies outside the documented grammar
and is modelled as matching nothing), anything else matches itself. -/
def likeMatch : Str → Str → Bool
  | [], [] => true
  | [], _ :: _ => false
  | p :: ps, [] => p = '%' && likeMatch ps []
  | p :: ps, c :: cs =>
      if p = '%' then likeMatch ps (c :: cs) || likeMatch (p :: ps) cs
      else if p = '_' then likeMatch ps cs
      else if p = '[' then
        if ps.contains ']' then
          (match ps.takeWhile (fun b => !(b = ']')) with
           | '^' :: neg => !charInRanges c neg
           | body => charInRanges c body) &&
          likeMatch ((ps.dropWhile (fun b => !(b = ']'))).tail) cs
        else false
      else p = c && likeMatch ps cs
termination_by pat s => (pat.length, s.length)
decreasing_by
  · exact Prod.Lex.left _ _ (by simp)
  · exact Prod.Lex.left _ _ (by simp)
  · exact Prod.Lex.right _ (by simp)
  · exact Prod.Lex.left _ _ (by simp)
  · refine Prod.Lex.left _ _ ?_
    have h1 : (ps.dropWhile (fun b => !(b = ']'))).Sublist ps :=
      List.dropWhile_sublist _
    have h2 := h1.length_le
    simp only [List.length_cons, List.length_tail]
    omega
  · exact Prod.Lex.left _ _ (by simp)

/-- SQLAlchemy `col.ilike(pat)`, compiled as `lower(col) LIKE lower(pat)`. -/
def sqlILike (s pat : Str) : Bool := likeMatch (lowerStr pat) (lowerStr s)

/-- Case-insensitive substring containment (the property the spec states
for search): the lowercased needle is an infix of the lowercased name. -/
def containsCI (name q : Str) : Bool := decide (lowerStr q <:+: lowerStr name)

/-- ASCII decimal digit. -/
def isDig (c : Char) : Bool := 48 ≤ c.toNat && c.toNat ≤ 57

/-- Models CPython `float(text)` parse success (ASCII grammar, without
underscore digit grouping): optional surrounding whitespace, optional sign,
then either `inf`/`infinity`/`nan` (case-insensitive) or a mantissa
(`digits [. digits]` or `. digits`) with an optional `e`/`E` exponent. -/
def pyFloatParses (s : Str) : Bool :=
  let t := pystrip s
  let t := match t with
           | c :: r => if c = '+' || c = '-' then r else c :: r
           | [] => []
  if lowerStr t = "inf".toList || lowerStr t = "infinity".toList ||
     lowerStr t = "nan".toList then
    true
  else
    let ds := t.takeWhile isDig
    let r := t.dropWhile isDig
    let mant : Bool × Str :=
      match r with
      | '.' :: r2 => (ds.length + (r2.takeWhile isDig).length > 0, r2.dropWhile isDig)
      | _ => (ds.length > 0, r)
    if !mant.1 then false
    else
      match mant.2 with
      | [] => true
      | e :: r2 =>
          if e = 'e' || e = 'E' then
            let r3 := match r2 with
                      | c :: r4 => if c = '+' || c = '-' then r4 else c :: r4
                      | [] => []
            !r3.isEmpty && r3.all isDig
          else false

/-- Characters kept by werkzeug's `secure_filename` sanitisation regex
(`[A-Za-z0-9_.-]`). -/
def filenameKeep (c : Char) : Bool :=
  (65 ≤ c.toNat && c.toNat ≤ 90) || (97 ≤ c.toNat && c.toNat ≤ 122) ||
  (48 ≤ c.toNat && c.toNat ≤ 57) || c = '_' || c = '.' || c = '-'

/-- `"_".join(text.split())` applied to a string with no leading whitespace:
each internal whitespace run becomes a single underscore.  The flag records
whether the previous character was whitespace. -/
def squashWS : Str → Bool → Str
  | [], _ => []
  | c :: cs, prev =>
      if isSpace c then
        (if prev then squashWS cs true else '_' :: squashWS cs true)
      else c :: squashWS cs false

def isDotUnderscore (c : Char) : Bool := c = '.' || c = '_'

/-- werkzeug `secure_filename` (POSIX host): drop non-ASCII (modelling the
NFKD/ascii-ignore step for ASCII input), turn path separators into spaces,
collapse whitespace runs to underscores, keep only `[A-Za-z0-9_.-]`, and
strip leading/trailing dots and underscores.  The Windows device-name guard
does not apply on this host and is omitted. -/
def secure_filename (f : Str) : Str :=
  let f := f.filter (fun c => c.toNat < 128)
  let f := f.map (fun c => if c = '/' then ' ' else c)
  let f := squashWS (pystrip f) false
  let f := f.filter filenameKeep
  ((f.dropWhile isDotUnderscore).reverse.dropWhile isDotUnderscore).reverse

/-- A row of the `Product` table.  `price` is stored by the source as the
result of `float(price_text)`; since no verified property inspects the
numeric value, the parsed value is represented by its source text. -/
structure Product where
  id : Nat
  name : Str
  price : Str
  description : Option Str
  image_url : Option Str
deriving DecidableEq, Repr

/-- The relational store: rows plus the next auto-increment primary key. -/
structure DBState where
  rows : List Product
  nextId : Nat
deriving DecidableEq, Repr

/-- Database plus the blob container (the set of stored blob names). -/
structure Sys where
  db : DBState
  blobs : List Str
deriving DecidableEq, Repr

/-- Outcomes of the external storage calls a single request can make, plus
the configured storage account name (used for URL construction). -/
structure Env where
  account_name : Str
  putFails : Bool
  putErrMsg : Str
  deleteFails : Bool
  deleteErrMsg : Str
deriving DecidableEq, Repr

/-- Python truthiness of an optional string (`None` and `""` are falsy);
also models werkzeug `FileStorage.__bool__`, which is `bool(filename)`. -/
def strTruthy : Option Str → Bool
  | none => false
  | some s => !s.isEmpty

/-- A serialised product as it appears in JSON list responses.  The
`image_url` field has type `Str`, not `Option Str`: it is always present
and never null in a response. -/
structure ProductOut where
  id : Nat
  name : Str
  price : Str
  description : Option Str
  image_url : Str
deriving DecidableEq, Repr

/-- `p.image_url if p.image_url else ""`. -/
def renderImageUrl (u : Option Str) : Str :=
  match u with
  | none => []
  | some s => if s.isEmpty then [] else s

def renderProduct (p : Product) : ProductOut :=
  ⟨p.id, p.name, p.price, p.description, renderImageUrl p.image_url⟩

/-- JSON response bodies produced by the handlers. -/
inductive Body where
  | msg (m : Str)
  | error (e : Str)
  | errDetails (e details : Str)
  | items (l : List ProductOut)
deriving DecidableEq, Repr

structure Resp where
  status : Nat
  body : Body
deriving DecidableEq, Repr

def AZURE_CONTAINER_NAME : Str := "product-images".toList

/-- `f"https://{account}.blob.core.windows.net/{container}/{filename}"`. -/
def blobUrl (env : Env) (filename : Str) : Str :=
  "https://".toList ++ env.account_name ++ ".blob.core.windows.net/".toList ++
  AZURE_CONTAINER_NAME ++ "/".toList ++ filename

/-- `upload_blob(..., overwrite=True)`: a colliding name is overwritten, so
the set of stored names gains `n` if absent. -/
def insertBlob (n : Str) (bs : List Str) : List Str :=
  if bs.contains n then bs else bs ++ [n]

/-- Error message of the `ValueError` raised by `float(text)`. -/
def floatErrMsg (s : Str) : Str :=
  "could not convert string to float: ".toList ++ s

/-- Error message of the Azure `ResourceNotFoundError` raised by
`delete_blob` on a missing blob. -/
def blobNotFoundMsg : Str := "The specified blob does not exist.".toList

/-- A parsed `POST /products` multipart form: `request.form.get` yields
`None` for an absent field; `image` is the uploaded file's filename
(`request.files.get("image")`), `none` when the field is absent. -/
structure CreateReq where
  name : Option Str
  price : Option Str
  description : Option Str
  image : Option Str
deriving DecidableEq, Repr

/-- `add_product` (POST /products).  Steps, in source order: truthiness
check of `name`/`price` (400); if the file is truthy, `secure_filename`
then `upload_blob` (a raised storage error is caught by the handler's
`except` → 500 with the database and container untouched) and URL
construction; then `Product(..., price=float(price), ...)` — `float` raises
on a non-numeric string, caught → 500, after any upload already happened;
then `session.add`/`commit` assigns the next id and appends the row. -/
def add_product (env : Env) (req : CreateReq) (s : Sys) : Sys × Resp :=
  if !strTruthy req.name || !strTruthy req.price then
    (s, ⟨400, .error "Name and price are required".toList⟩)
  else
    let price := req.price.getD []
    let upload : Option (Sys × Option Str) :=
      if strTruthy req.image then
        if env.putFails then none
        else
          let filename := secure_filename (req.image.getD [])
          some (⟨s.db, insertBlob filename s.blobs⟩, some (blobUrl env filename))
      else some (s, none)
    match upload with
    | none => (s, ⟨500, .errDetails "Failed to add product".toList env.putErrMsg⟩)
    | some (s1, image_url) =>
        if pyFloatParses price then
          let newp : Product :=
            ⟨s1.db.nextId, req.name.getD [], price, req.description, image_url⟩
          (⟨⟨s1.db.rows ++ [newp], s1.db.nextId + 1⟩, s1.blobs⟩,
           ⟨201, .msg "Product added successfully".toList⟩)
        else
          (s1, ⟨500, .errDetails "Failed to add product".toList (floatErrMsg price)⟩)

/-- `get_products` (GET /products): serialise every row. -/
def get_products (s : Sys) : Resp :=
  ⟨200, .items (s.db.rows.map renderProduct)⟩

/-- `Product.query.get(product_id)`: primary-key lookup. -/
def findProduct (pid : Nat) (s : Sys) : Option Product :=
  s.db.rows.find? (fun p => p.id == pid)

/-- `url.split("/")[-1]`: the characters after the last slash. -/
def lastSegment (url : Str) : Str :=
  (url.reverse.takeWhile (fun c => !(c == '/'))).reverse

/-- `delete_product` (DELETE /products/<id>).  Absent id → 404.  If the
row's `image_url` is truthy, call `delete_blob` on the URL's last path
segment: the call raises on a network/auth failure AND on a missing blob
(Azure `ResourceNotFoundError`); either exception is caught by the
handler's catch-all `except` → 500 with the row NOT deleted.  Only after a
successful blob delete (or with no truthy `image_url`) is the row removed
and 200 returned. -/
def delete_product (env : Env) (pid : Nat) (s : Sys) : Sys × Resp :=
  match findProduct pid s with
  | none => (s, ⟨404, .error "Product not found".toList⟩)
  | some product =>
      if strTruthy product.image_url then
        let blob_name := lastSegment (product.image_url.getD [])
        if env.deleteFails then
          (s, ⟨500, .errDetails "Failed to delete product".toList env.deleteErrMsg⟩)
        else if s.blobs.contains blob_name then
          (⟨⟨s.db.rows.eraseP (fun p => p.id == pid), s.db.nextId⟩,
            s.blobs.erase blob_name⟩,
           ⟨200, .msg "Product deleted successfully".toList⟩)
        else
          (s, ⟨500, .errDetails "Failed to delete product".toList blobNotFoundMsg⟩)
      else
        (⟨⟨s.db.rows.eraseP (fun p => p.id == pid), s.db.nextId⟩, s.blobs⟩,
         ⟨200, .msg "Product deleted successfully".toList⟩)

/-- `f"Deleted {num_deleted} products"`. -/
def deletedMsg (n : Nat) : Str :=
  "Deleted ".toList ++ (toString n).toList ++ " products".toList

/-- `delete_all_products` (DELETE /products/delete_all): bulk row delete,
reporting the number of deleted rows; no storage call is made. -/
def delete_all_products (s : Sys) : Sys × Resp :=
  (⟨⟨[], s.db.nextId⟩, s.blobs⟩, ⟨200, .msg (deletedMsg s.db.rows.length)⟩)

/-- `search_products` (GET /products/search): `q` defaults to `""` and is
stripped; an empty result falls through to `get_products()`; otherwise the
rows are filtered with `name ILIKE '%' + query + '%'`. -/
def search_products (q : Str) (s : Sys) : Resp :=
  let query := pystrip q
  if query.isEmpty then get_products s
  else
    ⟨200, .items (((s.db.rows.filter
        (fun p => sqlILike p.name ('%' :: (query ++ ['%']))))).map renderProduct)⟩

/-- The list of serialised products in a response body (empty for
non-list bodies). -/
def itemsOf (r : Resp) : List ProductOut :=
  match r.body with
  | .items l => l
  | _ => []

/-! ### Helper lemmas about the embedded string functions -/

/-- ASCII lowercasing maps only `%` to `%`. -/
theorem lowerChar_eq_pct {c : Char} (h : lowerChar c = '%') : c = '%' := by
  unfold lowerChar at h
  split at h <;> first | assumption | exact absurd h (by decide)

/-- ASCII lowercasing maps only `_` to `_`. -/
theorem lowerChar_eq_us {c : Char} (h : lowerChar c = '_') : c = '_' := by
  unfold lowerChar at h
  split at h <;> first | assumption | exact absurd h (by decide)

/-- ASCII lowercasing maps only `[` to `[`. -/
theorem lowerChar_eq_lb {c : Char} (h : lowerChar c = '[') : c = '[' := by
  unfold lowerChar at h
  split at h <;> first | assumption | exact absurd h (by decide)

/-- Lowercasing preserves freedom from the `LIKE` wildcard characters. -/
theorem lowerStr_wildcard_free {q : Str} (h : ∀ c ∈ q, c ≠ '%' ∧ c ≠ '_' ∧ c ≠ '[') :
    ∀ c ∈ lowerStr q, c ≠ '%' ∧ c ≠ '_' ∧ c ≠ '[' := by
  intro c hc
  rcases List.mem_map.mp hc with ⟨a, ha, rfl⟩
  exact ⟨fun hp => (h a ha).1 (lowerChar_eq_pct hp),
         fun hu => (h a ha).2.1 (lowerChar_eq_us hu),
         fun hb => (h a ha).2.2 (lowerChar_eq_lb hb)⟩

/-- The empty pattern matches only the empty string. -/
theorem likeMatch_nil (s : Str) : likeMatch [] s = true ↔ s = [] := by
  cases s <;> simp [likeMatch]

/-- A leading `%` matches an arbitrary prefix: the rest of the pattern must
match some suffix of the string. -/
theorem likeMatch_pct_cons (ps s : Str) :
    likeMatch ('%' :: ps) s = true ↔ ∃ t, t <:+ s ∧ likeMatch ps t = true := by
  induction s with
  | nil =>
      simp [likeMatch, List.suffix_nil]
  | cons c cs ih =>
      rw [show likeMatch ('%' :: ps) (c :: cs)
            = (likeMatch ps (c :: cs) || likeMatch ('%' :: ps) cs) by
          simp [likeMatch]]
      rw [Bool.or_eq_true, ih]
      constructor
      · rintro (h | ⟨t, ht, hm⟩)
        · exact ⟨c :: cs, List.suffix_refl _, h⟩
        · exact ⟨t, List.suffix_cons_iff.mpr (Or.inr ht), hm⟩
      · rintro ⟨t, ht, hm⟩
        rcases List.suffix_cons_iff.mp ht with h | h
        · exact Or.inl (h ▸ hm)
        · exact Or.inr ⟨t, h, hm⟩

/-- A wildcard-free pattern matches exactly itself. -/
theorem likeMatch_lit (pat : Str) (hp : ∀ c ∈ pat, c ≠ '%' ∧ c ≠ '_' ∧ c ≠ '[') (s : Str) :
    likeMatch pat s = true ↔ pat = s := by
  induction pat generalizing s with
  | nil => cases s <;> simp [likeMatch]
  | cons p ps ih =>
      have hh := hp p (List.mem_cons_self p ps)
      have ht : ∀ c ∈ ps, c ≠ '%' ∧ c ≠ '_' ∧ c ≠ '[' :=
        fun c hc => hp c (List.mem_cons_of_mem _ hc)
      cases s with
      | nil => simp [likeMatch, hh.1]
      | cons c cs => simp [likeMatch, hh.1, hh.2.1, hh.2.2, ih ht]

/-- A wildcard-free pattern followed by `%` matches exactly the strings it
is a prefix of. -/
theorem likeMatch_lit_pct (pat : Str) (hp : ∀ c ∈ pat, c ≠ '%' ∧ c ≠ '_' ∧ c ≠ '[') (s : Str) :
    likeMatch (pat ++ ['%']) s = true ↔ pat <+: s := by
  induction pat generalizing s with
  | nil =>
      constructor
      · intro _
        exact List.nil_prefix
      · intro _
        rw [List.nil_append, likeMatch_pct_cons]
        exact ⟨[], List.nil_suffix, by simp [likeMatch]⟩
  | cons p ps ih =>
      have hh := hp p (List.mem_cons_self p ps)
      have ht : ∀ c ∈ ps, c ≠ '%' ∧ c ≠ '_' ∧ c ≠ '[' :=
        fun c hc => hp c (List.mem_cons_of_mem _ hc)
      cases s with
      | nil => simp [likeMatch, hh.1]
      | cons c cs => simp [likeMatch, hh.1, hh.2.1, hh.2.2, ih ht]

/-- `%pat%` with a wildcard-free `pat` matches exactly the strings that
contain `pat` as a contiguous substring. -/
theorem likeMatch_substring (q : Str) (hq : ∀ c ∈ q, c ≠ '%' ∧ c ≠ '_' ∧ c ≠ '[') (s : Str) :
    likeMatch ('%' :: (q ++ ['%'])) s = true ↔ q <:+: s := by
  rw [likeMatch_pct_cons, List.infix_iff_prefix_suffix]
  constructor
  · rintro ⟨t, hsuf, hm⟩
    exact ⟨t, (likeMatch_lit_pct q hq t).mp hm, hsuf⟩
  · rintro ⟨t, hpre, hsuf⟩
    exact ⟨t, hsuf, (likeMatch_lit_pct q hq t).mpr hpre⟩

/-! ### The claims -/

/-- C3: for a create request with truthy name and price and a supplied
image, a failing blob upload makes the whole operation fail with the
storage 500 response, and the state — database rows in particular — is
unchanged: the insert is sequenced strictly after a successful upload. -/
theorem add_product_put_failure_no_insert (env : Env) (req : CreateReq) (s : Sys)
    (hn : strTruthy req.name = true) (hp : strTruthy req.price = true)
    (hf : strTruthy req.image = true) (hfail : env.putFails = true) :
    add_product env req s =
      (s, ⟨500, .errDetails "Failed to add product".toList env.putErrMsg⟩) := by
  simp [add_product, hn, hp, hf, hfail]

/-- Witness for C3 at a concrete request and state. -/
theorem add_product_put_failure_no_insert_witness :
    add_product ⟨"acct".toList, true, "boom".toList, false, []⟩
        ⟨some "x".toList, some "1".toList, none, some "pic.png".toList⟩ ⟨⟨[], 1⟩, []⟩ =
      (⟨⟨[], 1⟩, []⟩, ⟨500, .errDetails "Failed to add product".toList "boom".toList⟩) :=
  add_product_put_failure_no_insert ⟨"acct".toList, true, "boom".toList, false, []⟩
    ⟨some "x".toList, some "1".toList, none, some "pic.png".toList⟩ ⟨⟨[], 1⟩, []⟩
    (by decide) (by decide) (by decide) rfl

/-- C4: deleting an existing product with a truthy image URL while the
blob delete fails with a network/auth storage error yields the 500
response and leaves the state — the product row in particular —
unchanged: the blob delete is sequenced strictly before the row delete. -/
theorem delete_product_storage_error_no_delete (env : Env) (pid : Nat) (s : Sys)
    (product : Product) (hfind : findProduct pid s = some product)
    (himg : strTruthy product.image_url = true) (hfail : env.deleteFails = true) :
    delete_product env pid s =
      (s, ⟨500, .errDetails "Failed to delete product".toList env.deleteErrMsg⟩) := by
  unfold delete_product
  rw [hfind]
  simp [himg, hfail]

/-- Witness for C4 at a concrete product and state. -/
theorem delete_product_storage_error_no_delete_witness :
    delete_product ⟨"acct".toList, false, [], true, "netfail".toList⟩ 1
        ⟨⟨[⟨1, "n".toList, "1".toList, none, some "https://a/b/i.png".toList⟩], 2⟩,
         ["i.png".toList]⟩ =
      (⟨⟨[⟨1, "n".toList, "1".toList, none, some "https://a/b/i.png".toList⟩], 2⟩,
        ["i.png".toList]⟩,
       ⟨500, .errDetails "Failed to delete product".toList "netfail".toList⟩) :=
  delete_product_storage_error_no_delete ⟨"acct".toList, false, [], true, "netfail".toList⟩ 1
    ⟨⟨[⟨1, "n".toList, "1".toList, none, some "https://a/b/i.png".toList⟩], 2⟩,
     ["i.png".toList]⟩
    ⟨1, "n".toList, "1".toList, none, some "https://a/b/i.png".toList⟩
    (by decide) (by decide) rfl

/-- C6: search with an empty (or absent, which Flask defaults to empty)
query string behaves identically to listing all products. -/
theorem search_empty_query_is_list (s : Sys) :
    search_products [] s = get_products s := rfl

/-- C7: the bulk delete empties the rows, reports the exact prior row
count in its message, and leaves the blob container untouched (the handler
makes no storage call at all). -/
theorem delete_all_rows_count_no_storage (s : Sys) :
    (delete_all_products s).1.db.rows = [] ∧
    (delete_all_products s).1.blobs = s.blobs ∧
    (delete_all_products s).2 = ⟨200, .msg (deletedMsg s.db.rows.length)⟩ :=
  ⟨rfl, rfl, rfl⟩

/-- C9: deleting a non-existent id yields 404 and leaves the whole state
(rows and blobs) untouched; no blob deletion is attempted. -/
theorem delete_product_not_found_untouched (env : Env) (pid : Nat) (s : Sys)
    (h : findProduct pid s = none) :
    delete_product env pid s = (s, ⟨404, .error "Product not found".toList⟩) := by
  unfold delete_product
  rw [h]

/-- Witness for C9 at a concrete state. -/
theorem delete_product_not_found_untouched_witness :
    delete_product ⟨"acct".toList, false, [], false, []⟩ 7
        ⟨⟨[⟨1, "n".toList, "1".toList, none, none⟩], 2⟩, ["b.png".toList]⟩ =
      (⟨⟨[⟨1, "n".toList, "1".toList, none, none⟩], 2⟩, ["b.png".toList]⟩,
       ⟨404, .error "Product not found".toList⟩) :=
  delete_product_not_found_untouched ⟨"acct".toList, false, [], false, []⟩ 7
    ⟨⟨[⟨1, "n".toList, "1".toList, none, none⟩], 2⟩, ["b.png".toList]⟩ (by decide)

/-- C10: a whitespace-only query is stripped to empty before the emptiness
check, so search behaves identically to listing all products. -/
theorem search_whitespace_query_is_list (q : Str) (s : Sys)
    (h : ∀ c ∈ q, isSpace c = true) :
    search_products q s = get_products s := by
  have hq : pystrip q = [] := by
    unfold pystrip
    rw [List.dropWhile_eq_nil_iff.mpr h]
    rfl
  simp only [search_products, hq]
  rfl

/-- Witness for C10 at the single-space query. -/
theorem search_whitespace_query_is_list_witness :
    search_products [' '] ⟨⟨[⟨1, "n".toList, "1".toList, none, none⟩], 2⟩, []⟩ =
      get_products ⟨⟨[⟨1, "n".toList, "1".toList, none, none⟩], 2⟩, []⟩ :=
  search_whitespace_query_is_list [' ']
    ⟨⟨[⟨1, "n".toList, "1".toList, none, none⟩], 2⟩, []⟩ (by decide)

/-- C1, as stated, is false: with name `"x"`, the non-numeric price text
`"abc"` and an image file, validation passes (the handler only checks
truthiness of `name` and `price`), the blob IS uploaded, and the later
`float("abc")` raises, producing 500 — not 400, and not free of storage
interaction. -/
theorem add_product_invalid_price_counterexample :
    (add_product ⟨"acct".toList, false, [], false, []⟩
        ⟨some "x".toList, some "abc".toList, none, some "pic.png".toList⟩
        ⟨⟨[], 1⟩, []⟩).2.status = 500 ∧
    (add_product ⟨"acct".toList, false, [], false, []⟩
        ⟨some "x".toList, some "abc".toList, none, some "pic.png".toList⟩
        ⟨⟨[], 1⟩, []⟩).1.blobs = ["pic.png".toList] := by
  decide

/-- C1 (amended): when `name` or `price` is empty or absent, the create
request fails with 400 and neither storage nor the database is touched.
(A non-empty, non-numeric price instead produces 500 after any supplied
image has already been uploaded; no row is inserted in that case either.) -/
theorem add_product_missing_field_400 (env : Env) (req : CreateReq) (s : Sys)
    (h : strTruthy req.name = false ∨ strTruthy req.price = false) :
    add_product env req s = (s, ⟨400, .error "Name and price are required".toList⟩) := by
  unfold add_product
  rcases h with h | h <;> simp [h]

/-- Witness for amended C1: an absent name with a valid price and an
image file still yields 400 and an unchanged state. -/
theorem add_product_missing_field_400_witness :
    add_product ⟨"acct".toList, false, [], false, []⟩
        ⟨none, some "1".toList, none, some "pic.png".toList⟩ ⟨⟨[], 1⟩, []⟩ =
      (⟨⟨[], 1⟩, []⟩, ⟨400, .error "Name and price are required".toList⟩) :=
  add_product_missing_field_400 ⟨"acct".toList, false, [], false, []⟩
    ⟨none, some "1".toList, none, some "pic.png".toList⟩ ⟨⟨[], 1⟩, []⟩ (Or.inl rfl)

/-- C2, as stated, is false: deleting an existing product whose image URL
names a blob absent from the container makes `delete_blob` raise the Azure
`ResourceNotFoundError`, which the handler's catch-all turns into 500 with
the row still present — not a tolerated 200 with the row deleted. -/
theorem delete_product_blob_missing_counterexample :
    (delete_product ⟨"acct".toList, false, [], false, []⟩ 1
        ⟨⟨[⟨1, "n".toList, "1".toList, none, some "https://a/b/img.png".toList⟩], 2⟩,
         []⟩).2.status = 500 ∧
    (delete_product ⟨"acct".toList, false, [], false, []⟩ 1
        ⟨⟨[⟨1, "n".toList, "1".toList, none, some "https://a/b/img.png".toList⟩], 2⟩,
         []⟩).1 =
      ⟨⟨[⟨1, "n".toList, "1".toList, none, some "https://a/b/img.png".toList⟩], 2⟩, []⟩ := by
  decide

/-- C2 (amended): a storage-side "not found" on the blob delete is NOT
tolerated — it propagates like any other storage error, the operation
fails with 500, and the row is not deleted (the state is unchanged). -/
theorem delete_product_blob_missing_500 (env : Env) (pid : Nat) (s : Sys)
    (product : Product) (hfind : findProduct pid s = some product)
    (himg : strTruthy product.image_url = true) (hnet : env.deleteFails = false)
    (hmiss : s.blobs.contains (lastSegment (product.image_url.getD [])) = false) :
    delete_product env pid s =
      (s, ⟨500, .errDetails "Failed to delete product".toList blobNotFoundMsg⟩) := by
  have hmiss' : lastSegment (product.image_url.getD []) ∉ s.blobs := by
    simpa using hmiss
  unfold delete_product
  rw [hfind]
  simp [himg, hnet, hmiss']

/-- Witness for amended C2 at a concrete product whose blob is absent. -/
theorem delete_product_blob_missing_500_witness :
    delete_product ⟨"acct".toList, false, [], false, []⟩ 1
        ⟨⟨[⟨1, "n".toList, "1".toList, none, some "https://a/b/img.png".toList⟩], 2⟩, []⟩ =
      (⟨⟨[⟨1, "n".toList, "1".toList, none, some "https://a/b/img.png".toList⟩], 2⟩, []⟩,
       ⟨500, .errDetails "Failed to delete product".toList blobNotFoundMsg⟩) :=
  delete_product_blob_missing_500 ⟨"acct".toList, false, [], false, []⟩ 1
    ⟨⟨[⟨1, "n".toList, "1".toList, none, some "https://a/b/img.png".toList⟩], 2⟩, []⟩
    ⟨1, "n".toList, "1".toList, none, some "https://a/b/img.png".toList⟩
    (by decide) (by decide) rfl (by decide)

/-- C8: every product object in a list-style response of GET /products or
GET /products/search is the serialisation of a stored row, the serialised
`image_url` field is a plain string (by type it can be neither null nor
omitted), and it is the empty string whenever the row stores no image. -/
theorem response_image_url_empty_when_none (s : Sys) (q : Str) (o : ProductOut)
    (h : o ∈ itemsOf (get_products s) ∨ o ∈ itemsOf (search_products q s)) :
    ∃ p, p ∈ s.db.rows ∧ o = renderProduct p ∧
      (p.image_url = none → o.image_url = []) := by
  have key : ∀ p : Product, p ∈ s.db.rows → renderProduct p = o →
      ∃ p', p' ∈ s.db.rows ∧ o = renderProduct p' ∧
        (p'.image_url = none → o.image_url = []) := by
    intro p hp ho
    refine ⟨p, hp, ho.symm, fun hnone => ?_⟩
    rw [← ho, renderProduct]
    simp [renderImageUrl, hnone]
  rcases h with h | h
  · simp only [itemsOf, get_products, List.mem_map] at h
    rcases h with ⟨p, hp, hpo⟩
    exact key p hp hpo
  · simp only [search_products, itemsOf] at h
    by_cases he : (pystrip q).isEmpty = true
    · rw [if_pos he] at h
      simp only [get_products, List.mem_map] at h
      rcases h with ⟨p, hp, hpo⟩
      exact key p hp hpo
    · rw [if_neg he] at h
      simp only [List.mem_map] at h
      rcases h with ⟨p, hp, hpo⟩
      exact key p (List.mem_of_mem_filter hp) hpo

/-- Witness for C8 at a concrete one-row catalog with no stored image. -/
theorem response_image_url_empty_when_none_witness :
    ∃ p, p ∈ [(⟨1, "n".toList, "1".toList, none, none⟩ : Product)] ∧
      renderProduct (⟨1, "n".toList, "1".toList, none, none⟩ : Product) = renderProduct p ∧
      (p.image_url = none →
        (renderProduct (⟨1, "n".toList, "1".toList, none, none⟩ : Product)).image_url = []) :=
  response_image_url_empty_when_none ⟨⟨[⟨1, "n".toList, "1".toList, none, none⟩], 2⟩, []⟩
    [] (renderProduct ⟨1, "n".toList, "1".toList, none, none⟩) (Or.inl (by decide))

/-- C5, as stated, is false, in three independent ways.  `_` is a `LIKE`
single-character wildcard, so the query `"_"` matches the product named
`"ab"` although `"ab"` does not contain `"_"`.  The query is stripped
before matching, so `" red "` matches the product named `"redx"` although
`"redx"` does not contain `" red "`.  And `[a]` is a SQL Server `LIKE`
character class, so the query `"[a]"` matches the product named `"zaz"`
although `"zaz"` does not contain `"[a]"`. -/
theorem search_wildcard_counterexample :
    (search_products ['_'] ⟨⟨[⟨1, ['a', 'b'], ['1'], none, none⟩], 2⟩, []⟩ =
        ⟨200, .items [⟨1, ['a', 'b'], ['1'], none, []⟩]⟩ ∧
      containsCI ['a', 'b'] ['_'] = false) ∧
    (search_products [' ', 'r', 'e', 'd', ' ']
          ⟨⟨[⟨1, ['r', 'e', 'd', 'x'], ['1'], none, none⟩], 2⟩, []⟩ =
        ⟨200, .items [⟨1, ['r', 'e', 'd', 'x'], ['1'], none, []⟩]⟩ ∧
      containsCI ['r', 'e', 'd', 'x'] [' ', 'r', 'e', 'd', ' '] = false) ∧
    (search_products ['[', 'a', ']'] ⟨⟨[⟨1, ['z', 'a', 'z'], ['1'], none, none⟩], 2⟩, []⟩ =
        ⟨200, .items [⟨1, ['z', 'a', 'z'], ['1'], none, []⟩]⟩ ∧
      containsCI ['z', 'a', 'z'] ['[', 'a', ']'] = false) := by
  refine ⟨⟨?_, by decide⟩, ⟨?_, by decide⟩, ⟨?_, by decide⟩⟩
  · have hstrip : pystrip ['_'] = ['_'] := by decide
    have hmatch : sqlILike ['a', 'b'] ['%', '_', '%'] = true := by
      unfold sqlILike
      rw [show lowerStr ['%', '_', '%'] = ['%', '_', '%'] from by decide,
          show lowerStr ['a', 'b'] = ['a', 'b'] from by decide]
      simp [likeMatch]
    simp [search_products, hstrip, List.filter_cons, hmatch, renderProduct,
          renderImageUrl]
  · have hstrip : pystrip [' ', 'r', 'e', 'd', ' '] = ['r', 'e', 'd'] := by decide
    have hmatch : sqlILike ['r', 'e', 'd', 'x'] ['%', 'r', 'e', 'd', '%'] = true := by
      unfold sqlILike
      rw [show lowerStr ['%', 'r', 'e', 'd', '%'] = ['%', 'r', 'e', 'd', '%'] from by decide,
          show lowerStr ['r', 'e', 'd', 'x'] = ['r', 'e', 'd', 'x'] from by decide]
      simp [likeMatch]
    simp [search_products, hstrip, List.filter_cons, hmatch, renderProduct,
          renderImageUrl]
  · have hstrip : pystrip ['[', 'a', ']'] = ['[', 'a', ']'] := by decide
    have hmatch : sqlILike ['z', 'a', 'z'] ['%', '[', 'a', ']', '%'] = true := by
      unfold sqlILike
      rw [show lowerStr ['%', '[', 'a', ']', '%'] = ['%', '[', 'a', ']', '%'] from by decide,
          show lowerStr ['z', 'a', 'z'] = ['z', 'a', 'z'] from by decide]
      simp [likeMatch, charInRanges]
    simp [search_products, hstrip, List.filter_cons, hmatch, renderProduct,
          renderImageUrl]

/-- C5 (amended): for a non-empty query that equals its own whitespace
strip and contains no SQL Server `LIKE` wildcard character (`%`, `_` or
`[`), the search returns exactly the products whose name contains the
query as a case-insensitive substring. -/
theorem search_exact_substring (q : Str) (s : Sys) (hne : q ≠ [])
    (hstrip : pystrip q = q) (hw : ∀ c ∈ q, c ≠ '%' ∧ c ≠ '_' ∧ c ≠ '[') :
    search_products q s =
      ⟨200, .items ((s.db.rows.filter (fun p => containsCI p.name q)).map renderProduct)⟩ := by
  have hfilter : s.db.rows.filter (fun p => sqlILike p.name ('%' :: (q ++ ['%'])))
      = s.db.rows.filter (fun p => containsCI p.name q) := by
    apply List.filter_congr
    intro p _
    have hpc : lowerChar '%' = '%' := by decide
    have hlow : lowerStr ('%' :: (q ++ ['%'])) = '%' :: (lowerStr q ++ ['%']) := by
      simp only [lowerStr, List.map_cons, List.map_append, List.map_nil, hpc]
    rw [show sqlILike p.name ('%' :: (q ++ ['%']))
          = likeMatch (lowerStr ('%' :: (q ++ ['%']))) (lowerStr p.name) from rfl, hlow]
    apply Bool.eq_iff_iff.mpr
    rw [likeMatch_substring _ (lowerStr_wildcard_free hw) _]
    simp [containsCI]
  have hemp : q.isEmpty = false := by
    cases q with
    | nil => exact absurd rfl hne
    | cons a l => rfl
  simp only [search_products, hstrip, hemp, Bool.false_eq_true, if_false, hfilter]

/-- Witness for amended C5: `q = "red"` over a three-product catalog
returns exactly the two products whose names contain "red"
case-insensitively. -/
theorem search_exact_substring_witness :
    search_products "red".toList
        ⟨⟨[⟨1, "Red Mug".toList, "1".toList, none, none⟩,
           ⟨2, "red hat".toList, "2".toList, none, none⟩,
           ⟨3, "Blue Cup".toList, "3".toList, none, none⟩], 4⟩, []⟩ =
      ⟨200, .items
        ((([⟨1, "Red Mug".toList, "1".toList, none, none⟩,
            ⟨2, "red hat".toList, "2".toList, none, none⟩,
            ⟨3, "Blue Cup".toList, "3".toList, none, none⟩] : List Product).filter
          (fun p => containsCI p.name "red".toList)).map renderProduct)⟩ :=
  search_exact_substring "red".toList
    ⟨⟨[⟨1, "Red Mug".toList, "1".toList, none, none⟩,
       ⟨2, "red hat".toList, "2".toList, none, none⟩,
       ⟨3, "Blue Cup".toList, "3".toList, none, none⟩], 4⟩, []⟩
    (by decide) (by decide) (by decide)
